import Mathlib

/-!
Shallow embedding of the result-aggregation pipeline of
`awscli/customizations/s3/results.py`: the event record types, the
`ResultRecorder` counter fold, the `ResultPrinter` terminal renderer (and its
`OnlyShowErrorsResultPrinter` variant), and the `ResultProcessor` consumer
loop.  Python integers are embedded as `Int`, mutable objects as explicit
state records, output streams as the concatenation of everything written to
them, and a raised exception as an `Option String` component of a step's
result (holding the mutations performed before the raise, as Python does).
-/

/-- Event records sent through the result queue.  The source defines five
namedtuples (`QueuedResult`, `ProgressResult`, `SuccessResult`,
`FailureResult` in results.py and `WarningResult` in utils.py); both
`ResultRecorder.record_result` and `ResultPrinter.print_result` dispatch on
the exact runtime type (`type(result)`) with a no-op fallback, so any object
of another exact type — including a strict subclass of one of the five —
falls into the `unrecognized` case.  The `exception` carried by a failure is
embedded by the string it formats to. -/
inductive Result where
  | queued (transfer_type src dest : String) (total_transfer_size : Int)
  | progress (transfer_type src dest : String)
      (bytes_transferred total_transfer_size : Int)
  | success (transfer_type src dest : String)
  | failure (transfer_type src dest exception : String)
  | warning (message : String)
  | unrecognized
  deriving DecidableEq, Repr

/-- State of `ResultRecorder` (results.py lines 136-143): the six counters
initialised to zero in `__init__`. -/
structure ResultRecorder where
  bytes_transferred : Int
  files_transferred : Int
  files_failed : Int
  files_warned : Int
  expected_bytes_transferred : Int
  expected_files_transferred : Int
  deriving DecidableEq, Repr

/-- The all-zero state built by `ResultRecorder.__init__`. -/
def ResultRecorder.initial : ResultRecorder :=
  { bytes_transferred := 0
    files_transferred := 0
    files_failed := 0
    files_warned := 0
    expected_bytes_transferred := 0
    expected_files_transferred := 0 }

/-- Handler `ResultRecorder._record_queued_result`. -/
def ResultRecorder.record_queued_result (rec : ResultRecorder)
    (total_transfer_size : Int) : ResultRecorder :=
  { rec with
    expected_files_transferred := rec.expected_files_transferred + 1
    expected_bytes_transferred :=
      rec.expected_bytes_transferred + total_transfer_size }

/-- Handler `ResultRecorder._record_progress_result`. -/
def ResultRecorder.record_progress_result (rec : ResultRecorder)
    (bytes_transferred : Int) : ResultRecorder :=
  { rec with bytes_transferred := rec.bytes_transferred + bytes_transferred }

/-- Handler `ResultRecorder._record_success_result`. -/
def ResultRecorder.record_success_result (rec : ResultRecorder) :
    ResultRecorder :=
  { rec with files_transferred := rec.files_transferred + 1 }

/-- Handler `ResultRecorder._record_failure_result` (results.py lines
172-174): it only increments `files_failed` and `files_transferred`; no
byte counter is touched and the recorder has no other state. -/
def ResultRecorder.record_failure_result (rec : ResultRecorder) :
    ResultRecorder :=
  { rec with
    files_failed := rec.files_failed + 1
    files_transferred := rec.files_transferred + 1 }

/-- Handler `ResultRecorder._record_warning_result`. -/
def ResultRecorder.record_warning_result (rec : ResultRecorder) :
    ResultRecorder :=
  { rec with files_warned := rec.files_warned + 1 }

/-- Handler `ResultRecorder._record_noop`: unrecognised exact types do
nothing. -/
def ResultRecorder.record_noop (rec : ResultRecorder) : ResultRecorder :=
  rec

/-- Dispatcher `ResultRecorder.record_result`: looks the exact type of the
result up in `_result_handler_map` and falls back to `_record_noop`. -/
def ResultRecorder.record_result (rec : ResultRecorder) (result : Result) :
    ResultRecorder :=
  match result with
  | .queued _ _ _ size => rec.record_queued_result size
  | .progress _ _ _ bytes _ => rec.record_progress_result bytes
  | .success _ _ _ => rec.record_success_result
  | .failure _ _ _ _ => rec.record_failure_result
  | .warning _ => rec.record_warning_result
  | .unrecognized => rec.record_noop

/-- Recording a whole sequence of results in order, starting from a given
state. -/
def ResultRecorder.record_all (rec : ResultRecorder)
    (results : List Result) : ResultRecorder :=
  results.foldl ResultRecorder.record_result rec

/-- Sizes of the `QueuedResult` events of a sequence, in order. -/
def queuedSizes (results : List Result) : List Int :=
  results.filterMap fun r =>
    match r with
    | .queued _ _ _ size => some size
    | _ => none

/-- Python's `str.ljust(n)`: pad on the right with spaces up to width `n`. -/
def ljust (s : String) (n : Nat) : String :=
  s ++ String.mk (List.replicate (n - s.length) ' ')

/-- One-decimal-place rendering of `v / unit` used by the byte formatter. -/
def oneDecimal (v unit : Int) : String :=
  toString (10 * v / unit / 10) ++ "." ++ toString (10 * v / unit % 10)

/-- Modelled from the spec: `human_readable_size` is imported by results.py
from `awscli.customizations.s3.utils`, whose source is not under `src/`.
The spec (sections 4.2 and 6) fixes only that byte counts are rendered with
binary unit suffixes (KiB/MiB/GiB) and one decimal place; rendering of
values below one KiB is unspecified there and is modelled as `{n} Bytes`. -/
def human_readable_size (value : Int) : String :=
  if value < 1024 then toString value ++ " Bytes"
  else if value < 1024 ^ 2 then oneDecimal value 1024 ++ " KiB"
  else if value < 1024 ^ 3 then oneDecimal value (1024 ^ 2) ++ " MiB"
  else oneDecimal value (1024 ^ 3) ++ " GiB"

/-- State of a `ResultPrinter`: the tracked length of the last progress
statement (`_progress_length`, initialised to 0) and the two output streams,
each embedded as the concatenation of everything written to it so far
(`uni_print` writes the statement verbatim). -/
structure ResultPrinter where
  progress_length : Nat
  out_file : String
  error_file : String
  deriving DecidableEq, Repr

/-- A fresh printer over empty streams. -/
def ResultPrinter.initial : ResultPrinter :=
  { progress_length := 0, out_file := "", error_file := "" }

/-- The two printer classes: `ResultPrinter` itself and its subclass
`OnlyShowErrorsResultPrinter`, which overrides `_print_progress` and
`_print_success` with no-ops.  The base class's other methods invoke
`self._print_progress` dynamically, so they are parametrised by the kind. -/
inductive PrinterKind where
  | standard
  | onlyShowErrors
  deriving DecidableEq, Repr

/-- `ResultPrinter._adjust_statement_padding`: left-justify the statement to
the tracked progress length and append the ending character. -/
def adjust_statement_padding (progress_length : Nat)
    (print_statement ending_char : String) : String :=
  ljust print_statement progress_length ++ ending_char

/-- `ResultPrinter.PROGRESS_FORMAT` applied to the recorder's counters, as
`_print_progress` builds it (results.py lines 181-184 and 273-289). -/
def progress_statement (rec : ResultRecorder) : String :=
  "Transferred " ++ human_readable_size rec.bytes_transferred ++ "/" ++
    human_readable_size rec.expected_bytes_transferred ++ " for " ++
    toString rec.files_transferred ++ "/" ++
    toString rec.expected_files_transferred ++ " files."

/-- `ResultPrinter.SUCCESS_FORMAT` with `TWO_WAY_DIRECTION_FORMAT`. -/
def success_statement (transfer_type src dest : String) : String :=
  transfer_type ++ ": " ++ src ++ " to " ++ dest

/-- `ResultPrinter.FAILURE_FORMAT` with `TWO_WAY_DIRECTION_FORMAT`. -/
def failure_statement (transfer_type src dest exception : String) : String :=
  transfer_type ++ " failed: " ++ src ++ " to " ++ dest ++ " " ++ exception

/-- `ResultPrinter.WARNING_FORMAT`. -/
def warning_statement (message : String) : String :=
  "warning: " ++ message

/-- `ResultPrinter._print_progress`: pad the statement to the previous
tracked length, append a carriage return (no newline), remember the new
statement's length, and write it to the out file. -/
def ResultPrinter.print_progress (p : ResultPrinter) (rec : ResultRecorder) :
    ResultPrinter :=
  let stmt := adjust_statement_padding p.progress_length
    (progress_statement rec) "\r"
  { p with
    progress_length := stmt.length
    out_file := p.out_file ++ stmt }

/-- Dynamic dispatch of `self._print_progress`: the errors-only subclass
overrides it with `pass`. -/
def dispatch_print_progress (k : PrinterKind) (p : ResultPrinter)
    (rec : ResultRecorder) : ResultPrinter :=
  match k with
  | .standard => p.print_progress rec
  | .onlyShowErrors => p

/-- `ResultPrinter._is_final_file`. -/
def is_final_file (rec : ResultRecorder) : Bool :=
  rec.files_transferred == rec.expected_files_transferred

/-- `ResultPrinter._add_progress_if_needed`. -/
def add_progress_if_needed (k : PrinterKind) (p : ResultPrinter)
    (rec : ResultRecorder) : ResultPrinter :=
  if is_final_file rec then p else dispatch_print_progress k p rec

/-- `ResultPrinter._redisplay_progress`: reset the tracked length to zero
(the preceding statement ended with a newline), then re-emit a progress line
if the transfer set is not complete. -/
def redisplay_progress (k : PrinterKind) (p : ResultPrinter)
    (rec : ResultRecorder) : ResultPrinter :=
  add_progress_if_needed k { p with progress_length := 0 } rec

/-- `ResultPrinter._print_success` of the base class: pad the success
statement, end it with a newline, write to the out file, redisplay. -/
def print_success_statement (k : PrinterKind) (p : ResultPrinter)
    (rec : ResultRecorder) (transfer_type src dest : String) :
    ResultPrinter :=
  let stmt := adjust_statement_padding p.progress_length
    (success_statement transfer_type src dest) "\n"
  redisplay_progress k { p with out_file := p.out_file ++ stmt } rec

/-- Dynamic dispatch of `self._print_success`: overridden with `pass` in the
errors-only subclass. -/
def dispatch_print_success (k : PrinterKind) (p : ResultPrinter)
    (rec : ResultRecorder) (transfer_type src dest : String) :
    ResultPrinter :=
  match k with
  | .standard => print_success_statement k p rec transfer_type src dest
  | .onlyShowErrors => p

/-- `ResultPrinter._print_failure` (inherited unchanged by the errors-only
subclass): pad the failure statement, end it with a newline, write it to the
error file, redisplay. -/
def print_failure_statement (k : PrinterKind) (p : ResultPrinter)
    (rec : ResultRecorder) (transfer_type src dest exception : String) :
    ResultPrinter :=
  let stmt := adjust_statement_padding p.progress_length
    (failure_statement transfer_type src dest exception) "\n"
  redisplay_progress k { p with error_file := p.error_file ++ stmt } rec

/-- `ResultPrinter._print_warning` (inherited unchanged by the errors-only
subclass). -/
def print_warning_statement (k : PrinterKind) (p : ResultPrinter)
    (rec : ResultRecorder) (message : String) : ResultPrinter :=
  let stmt := adjust_statement_padding p.progress_length
    (warning_statement message) "\n"
  redisplay_progress k { p with error_file := p.error_file ++ stmt } rec

/-- Dispatcher `ResultPrinter.print_result`: the handler map covers exactly
`ProgressResult`, `SuccessResult`, `FailureResult` and `WarningResult`; any
other exact type (including `QueuedResult`) falls back to `_print_noop`. -/
def ResultPrinter.print_result (p : ResultPrinter) (k : PrinterKind)
    (rec : ResultRecorder) (result : Result) : ResultPrinter :=
  match result with
  | .progress _ _ _ _ _ => dispatch_print_progress k p rec
  | .success tt s d => dispatch_print_success k p rec tt s d
  | .failure tt s d e => print_failure_statement k p rec tt s d e
  | .warning m => print_warning_statement k p rec m
  | .queued _ _ _ _ => p
  | .unrecognized => p

/-- An item dequeued by `ResultProcessor.run`: either a result or a
`ShutdownThreadRequest` (recognised with `isinstance`, so any such sentinel
value takes the `shutdown` branch). -/
inductive QueueItem where
  | item (r : Result)
  | shutdown
  deriving DecidableEq, Repr

/-- A mutating call that may raise: it returns the state as mutated up to
the point of the raise together with the raised exception, if any (Python
keeps mutations performed before an exception escapes). -/
def Step (σ : Type) : Type :=
  Result → σ → σ × Option String

/-- `ResultProcessor._process_result` over abstract recorder and printer
steps: call the recorder first; only if it returns normally, call the
printer (when one is configured).  The returned state keeps the recorder's
update even when the printer raises. -/
def process_result {σ : Type} (record : Step σ) (printRes : Option (Step σ))
    (r : Result) (st : σ) : σ × Option String :=
  match record r st with
  | (st1, some e) => (st1, some e)
  | (st1, none) =>
    match printRes with
    | none => (st1, none)
    | some pr => pr r st1

/-- The loop of `ResultProcessor.run` over the finite list of items the
queue hands out, in dequeue order.  Dequeuing the shutdown sentinel breaks
out of the loop at once; for every other item `_process_result` is called
inside a `try/except Exception` that logs and swallows whatever it raises,
so the loop always continues with the state the call left behind (the
blocking dequeue itself is outside the model: the list is what was
dequeued). -/
def run_loop {σ : Type} (record : Step σ) (printRes : Option (Step σ)) :
    List QueueItem → σ → σ
  | [], st => st
  | .shutdown :: _, st => st
  | .item r :: rest, st =>
    run_loop record printRes rest (process_result record printRes r st).1

/-- Modelled from the spec: the processor loop as sections 4.3 and 9 of the
spec describe it — the processor catches only printer-raised failures (logs
them and continues), while an exception raised by the recorder itself is not
expected and propagates out of the loop.  This definition follows the
spec's words, for comparison with `run_loop`, which embeds the source. -/
def run_loop_spec_model {σ : Type} (record : Step σ)
    (printRes : Option (Step σ)) : List QueueItem → σ → Except String σ
  | [], st => .ok st
  | .shutdown :: _, st => .ok st
  | .item r :: rest, st =>
    match record r st with
    | (_, some e) => .error e
    | (st1, none) =>
      let st2 :=
        match printRes with
        | none => st1
        | some pr => (pr r st1).1
      run_loop_spec_model record printRes rest st2

/-- Combined state of the consumer thread: the recorder and the printer the
processor was constructed with. -/
structure ProcState where
  recorder : ResultRecorder
  printer : ResultPrinter
  deriving DecidableEq, Repr

/-- The actual recorder as a step: `ResultRecorder.record_result` raises on
no input. -/
def recorder_step : Step ProcState :=
  fun r st => ({ st with recorder := st.recorder.record_result r }, none)

/-- The actual printer as a step: `ResultPrinter.print_result` (reading the
recorder the printer was constructed around) raises on no input. -/
def printer_step (k : PrinterKind) : Step ProcState :=
  fun r st =>
    ({ st with printer := st.printer.print_result k st.recorder r }, none)

/-- A printer whose underlying stream is broken: every call raises before
anything is written or any state changes. -/
def broken_printer_step : Step ProcState :=
  fun _ st => (st, some "broken stream")

/-- `ResultProcessor.run` with the real recorder and printer. -/
def processor_run (k : PrinterKind) (items : List QueueItem)
    (st : ProcState) : ProcState :=
  run_loop recorder_step (some (printer_step k)) items st

/-- One fully processed event: record it, then print it. -/
def process_event (k : PrinterKind) (st : ProcState) (r : Result) :
    ProcState :=
  (process_result recorder_step (some (printer_step k)) r st).1

/-- `CommandResult` as built by `ResultProcessor.get_final_result`. -/
structure CommandResult where
  num_tasks_failed : Int
  num_tasks_warned : Int
  deriving DecidableEq, Repr

/-- `ResultProcessor.get_final_result`. -/
def get_final_result (st : ProcState) : CommandResult :=
  { num_tasks_failed := st.recorder.files_failed
    num_tasks_warned := st.recorder.files_warned }

/-- The results appearing in a queue before the first shutdown sentinel. -/
def items_before_shutdown : List QueueItem → List Result
  | [] => []
  | .shutdown :: _ => []
  | .item r :: rest => r :: items_before_shutdown rest

/-- A recorder step used to probe the loop's exception handling: it raises
on the event `warning "boom"` and otherwise appends the event to a trace. -/
def probe_recorder : Step (List Result) :=
  fun r tr =>
    match r with
    | .warning m =>
      if m = "boom" then (tr, some "recorder exploded")
      else (tr ++ [r], none)
    | _ => (tr ++ [r], none)

/-- The numeric fields of an event are non-negative (`total_transfer_size`
on queued events, `bytes_transferred` and `total_transfer_size` on progress
events; the other kinds carry no numeric field). -/
def result_nonneg : Result → Bool
  | .queued _ _ _ size => decide (0 ≤ size)
  | .progress _ _ _ bytes total => decide (0 ≤ bytes) && decide (0 ≤ total)
  | _ => true

/-! Helper lemmas. -/

theorem ljust_length (s : String) (n : Nat) :
    (ljust s n).length = max s.length n := by
  simp [ljust, String.length_append]
  omega

theorem ljust_zero (s : String) : ljust s 0 = s := by
  show s ++ String.mk (List.replicate (0 - s.length) ' ') = s
  rw [Nat.zero_sub, List.replicate_zero]
  exact String.append_empty s

theorem record_all_expected (results : List Result) (rec : ResultRecorder) :
    (rec.record_all results).expected_files_transferred
        = rec.expected_files_transferred + (queuedSizes results).length ∧
    (rec.record_all results).expected_bytes_transferred
        = rec.expected_bytes_transferred + (queuedSizes results).sum := by
  induction results generalizing rec with
  | nil => simp [ResultRecorder.record_all, queuedSizes]
  | cons r rest ih =>
    obtain ⟨h1, h2⟩ := ih (rec.record_result r)
    have hall : rec.record_all (r :: rest)
        = (rec.record_result r).record_all rest := rfl
    constructor
    · rw [hall, h1]
      cases r <;>
        simp [ResultRecorder.record_result, queuedSizes,
          ResultRecorder.record_queued_result,
          ResultRecorder.record_progress_result,
          ResultRecorder.record_success_result,
          ResultRecorder.record_failure_result,
          ResultRecorder.record_warning_result,
          ResultRecorder.record_noop]
      all_goals omega
    · rw [hall, h2]
      cases r <;>
        simp [ResultRecorder.record_result, queuedSizes,
          ResultRecorder.record_queued_result,
          ResultRecorder.record_progress_result,
          ResultRecorder.record_success_result,
          ResultRecorder.record_failure_result,
          ResultRecorder.record_warning_result,
          ResultRecorder.record_noop]
      all_goals omega

theorem record_result_failed_le (r : Result) (rec : ResultRecorder)
    (h : rec.files_failed ≤ rec.files_transferred) :
    (rec.record_result r).files_failed
      ≤ (rec.record_result r).files_transferred := by
  cases r <;>
    simp only [ResultRecorder.record_result,
      ResultRecorder.record_queued_result,
      ResultRecorder.record_progress_result,
      ResultRecorder.record_success_result,
      ResultRecorder.record_failure_result,
      ResultRecorder.record_warning_result, ResultRecorder.record_noop] <;>
    omega

theorem record_all_failed_le (results : List Result) (rec : ResultRecorder)
    (h : rec.files_failed ≤ rec.files_transferred) :
    (rec.record_all results).files_failed
      ≤ (rec.record_all results).files_transferred := by
  induction results generalizing rec with
  | nil => simpa [ResultRecorder.record_all] using h
  | cons r rest ih =>
    exact ih _ (record_result_failed_le r rec h)

theorem run_loop_broken_printer (items : List QueueItem) (st : ProcState) :
    run_loop recorder_step (some broken_printer_step) items st
      = run_loop recorder_step none items st := by
  induction items generalizing st with
  | nil => rfl
  | cons it rest ih =>
    cases it with
    | shutdown => rfl
    | item r => exact ih _

theorem run_loop_no_printer (items : List QueueItem) (st : ProcState) :
    run_loop recorder_step none items st
      = { st with recorder := st.recorder.record_all (items_before_shutdown items) } := by
  induction items generalizing st with
  | nil => rfl
  | cons it rest ih =>
    cases it with
    | shutdown => rfl
    | item r => exact ih { st with recorder := st.recorder.record_result r }

theorem only_show_errors_print_length (rec : ResultRecorder) (r : Result)
    (p : ResultPrinter) (h : p.progress_length = 0) :
    (p.print_result .onlyShowErrors rec r).progress_length = 0 := by
  cases r <;>
    simp [ResultPrinter.print_result, dispatch_print_progress,
      dispatch_print_success, print_failure_statement,
      print_warning_statement, redisplay_progress, add_progress_if_needed,
      dispatch_print_progress, h]

theorem only_show_errors_fold_length
    (steps : List (ResultRecorder × Result)) (p : ResultPrinter)
    (h : p.progress_length = 0) :
    (steps.foldl (fun q x => q.print_result .onlyShowErrors x.1 x.2)
        p).progress_length = 0 := by
  induction steps generalizing p with
  | nil => simpa using h
  | cons x rest ih =>
    exact ih _ (only_show_errors_print_length x.1 x.2 p h)

/-! Claim theorems. -/

/-- Claim C1 (code-bug evidence): evaluating the recorder of results.py at
the claim's scenario — a transfer queued with total size 20 MiB, a recorded
progress of 5 MiB, then a failure — yields a state in which
`bytes_transferred` stays frozen at 5 MiB and the failure only incremented
`files_failed` and `files_transferred`.  The recorder state has no
`bytes_failed_to_transfer` counter (its six fields are listed exhaustively
here), so the 15 MiB undelivered remainder asserted by the claim and by the
repository's own tests is recorded nowhere. -/
theorem c1_failure_remainder_unrecorded :
    ResultRecorder.initial.record_all
        [.queued "upload" "file" "s3://bucket/key" 20971520,
         .progress "upload" "file" "s3://bucket/key" 5242880 20971520,
         .failure "upload" "file" "s3://bucket/key" "boom"]
      = { bytes_transferred := 5242880
          files_transferred := 1
          files_failed := 1
          files_warned := 0
          expected_bytes_transferred := 20971520
          expected_files_transferred := 1 } := by
  decide

/-- Claim C2 (code-bug evidence): at the state the repository's own printer
test uses (1 MiB of 20 MiB transferred, 1 of 4 files), the progress line the
source's `_print_progress` writes is
`Transferred 1.0 MiB/20.0 MiB for 1/4 files.` followed by a carriage return,
which is not the `Completed {bytes}/{total} with {N} files remaining.` line
the claim (and the repository's test suite) demands. -/
theorem c2_progress_format_mismatch :
    (ResultPrinter.initial.print_result .standard
        { bytes_transferred := 1048576
          files_transferred := 1
          files_failed := 0
          files_warned := 0
          expected_bytes_transferred := 20971520
          expected_files_transferred := 4 }
        (.progress "upload" "file" "s3://bucket/key" 1048576 20971520)).out_file
      = "Transferred 1.0 MiB/20.0 MiB for 1/4 files.\r" ∧
    "Transferred 1.0 MiB/20.0 MiB for 1/4 files.\r"
      ≠ "Completed 1.0 MiB/20.0 MiB with 3 files remaining.\r" := by
  constructor
  · decide
  · decide

/-- Claim C3 counterexample: the claim says an exception raised by the
recorder propagates out of the processor loop.  It does not: with a recorder
step that raises on the event `warning "boom"`, the source's loop swallows
the exception (the `try/except` in `run` wraps the whole `_process_result`
call) and goes on to record the following event, whereas a loop behaving as
the claim states — here `run_loop_spec_model`, written from the spec's
words — would stop with the error. -/
theorem c3_recorder_error_swallowed_counterexample :
    run_loop probe_recorder none
        [.item (.warning "boom"), .item (.success "upload" "a" "b"),
         .shutdown] []
      = [.success "upload" "a" "b"] ∧
    run_loop_spec_model probe_recorder none
        [.item (.warning "boom"), .item (.success "upload" "a" "b"),
         .shutdown] []
      = .error "recorder exploded" :=
  ⟨rfl, rfl⟩

/-- Claim C3 (amended): for every dequeued event the recorder runs before
the printer; an exception raised by the printer is caught and swallowed and
the loop continues with the recorder's update for that event already in
place (a run whose printer raises on every call yields exactly the recorder
state of a printer-less run, which folds the events before the sentinel in
order); but an exception raised by the recorder itself is also caught and
swallowed — the loop continues from whatever state the recorder left, it
never propagates. -/
theorem c3_processing_errors_swallowed :
    (∀ (items : List QueueItem) (st : ProcState),
        run_loop recorder_step (some broken_printer_step) items st
          = run_loop recorder_step none items st ∧
        (run_loop recorder_step none items st).recorder
          = st.recorder.record_all (items_before_shutdown items)) ∧
    (∀ (σ : Type) (record : Step σ) (pr : Step σ) (r : Result) (st st1 : σ),
        record r st = (st1, none) →
        process_result record (some pr) r st = pr r st1) ∧
    ∀ (σ : Type) (record : Step σ) (printRes : Option (Step σ)) (r : Result)
        (rest : List QueueItem) (st st1 : σ) (e : String),
        record r st = (st1, some e) →
        run_loop record printRes (.item r :: rest) st
          = run_loop record printRes rest st1 := by
  refine ⟨fun items st => ⟨run_loop_broken_printer items st, ?_⟩, ?_, ?_⟩
  · rw [run_loop_no_printer]
  · intro σ record pr r st st1 h
    simp [process_result, h]
  · intro σ record printRes r rest st st1 e h
    simp [run_loop, process_result, h]

/-- Witness for the amended C3: the probing recorder raises on the concrete
event `warning "boom"`, and the loop continues past it with the trace
unchanged instead of propagating. -/
theorem c3_processing_errors_swallowed_witness :
    probe_recorder (.warning "boom") [] = ([], some "recorder exploded") ∧
    run_loop probe_recorder none
        [.item (.warning "boom"), .item (.success "upload" "a" "b")] []
      = run_loop probe_recorder none [.item (.success "upload" "a" "b")] [] :=
  ⟨rfl,
    c3_processing_errors_swallowed.2.2 (List Result) probe_recorder none
      (.warning "boom") [.item (.success "upload" "a" "b")] [] []
      "recorder exploded" rfl⟩

/-- Claim C4: on a queue whose dequeue order is `e1..ek`, the shutdown
sentinel, then further items, the processor records and prints exactly
`e1..ek` in order (the run equals the left fold of record-then-print over
`e1..ek`, independent of what follows the sentinel) and exits on the
sentinel; for the concrete queue `[QueuedResult, SuccessResult, sentinel,
WarningResult]` the final tally reports zero failed and zero warned
tasks. -/
theorem c4_shutdown_sentinel :
    (∀ (k : PrinterKind) (es : List Result) (fs : List QueueItem)
        (st : ProcState),
        processor_run k (es.map QueueItem.item ++ QueueItem.shutdown :: fs) st
          = es.foldl (process_event k) st) ∧
    get_final_result
        (processor_run .standard
          [.item (.queued "upload" "src" "dest" 1048576),
           .item (.success "upload" "src" "dest"),
           .shutdown,
           .item (.warning "my warning")]
          { recorder := ResultRecorder.initial
            printer := ResultPrinter.initial })
      = { num_tasks_failed := 0, num_tasks_warned := 0 } := by
  constructor
  · intro k es fs st
    induction es generalizing st with
    | nil => rfl
    | cons e rest ih => exact ih (process_event k st e)
  · decide

/-- Claim C7: the tracked progress length equals the length of the whole
progress statement just written (padding and carriage return included); any
success, failure or warning statement printed next is left-justified to at
least that length before its newline; and the redisplayed progress line
emitted after such a newline-terminated statement is built with the tracked
length reset to zero, hence carries no padding. -/
theorem c7_padding_law :
    ∀ (rec : ResultRecorder) (p : ResultPrinter) (tt s d e m : String),
      ((p.print_progress rec).progress_length
          = (ljust (progress_statement rec) p.progress_length ++ "\r").length ∧
        (p.print_progress rec).out_file
          = p.out_file
            ++ (ljust (progress_statement rec) p.progress_length ++ "\r")) ∧
      ((print_success_statement .standard p rec tt s d).out_file
          = p.out_file
            ++ (ljust (success_statement tt s d) p.progress_length ++ "\n")
            ++ (if is_final_file rec then "" else
                progress_statement rec ++ "\r") ∧
        p.progress_length
          ≤ (ljust (success_statement tt s d) p.progress_length).length) ∧
      ((print_failure_statement .standard p rec tt s d e).error_file
          = p.error_file
            ++ (ljust (failure_statement tt s d e) p.progress_length
                ++ "\n") ∧
        (print_failure_statement .standard p rec tt s d e).out_file
          = p.out_file
            ++ (if is_final_file rec then "" else
                progress_statement rec ++ "\r") ∧
        p.progress_length
          ≤ (ljust (failure_statement tt s d e) p.progress_length).length) ∧
      ((print_warning_statement .standard p rec m).error_file
          = p.error_file
            ++ (ljust (warning_statement m) p.progress_length ++ "\n") ∧
        (print_warning_statement .standard p rec m).out_file
          = p.out_file
            ++ (if is_final_file rec then "" else
                progress_statement rec ++ "\r") ∧
        p.progress_length
          ≤ (ljust (warning_statement m) p.progress_length).length) := by
  intro rec p tt s d e m
  have hl : ∀ (str : String),
      p.progress_length ≤ (ljust str p.progress_length).length := by
    intro str
    rw [ljust_length]
    omega
  refine ⟨⟨rfl, rfl⟩, ⟨?_, hl _⟩, ⟨?_, ?_, hl _⟩, ⟨?_, ?_, hl _⟩⟩ <;>
    by_cases hf : is_final_file rec = true <;>
      simp [print_success_statement, print_failure_statement,
        print_warning_statement, redisplay_progress, add_progress_if_needed,
        dispatch_print_progress, ResultPrinter.print_progress,
        adjust_statement_padding, ljust_zero, hf, String.append_assoc,
        String.append_empty]

/-- Claim C8 counterexample: after a progress line has been displayed, the
full printer pads the next failure statement to the progress line's length
while the errors-only printer (whose overridden `_print_progress` never set
the tracked length) does not, so on the queue progress-then-failure the two
printers write different bytes to the error stream — the claim's "exactly as
the full printer does" fails. -/
theorem c8_errors_only_padding_counterexample :
    (((ResultPrinter.initial.print_result .standard
          { bytes_transferred := 0
            files_transferred := 0
            files_failed := 0
            files_warned := 0
            expected_bytes_transferred := 0
            expected_files_transferred := 1 }
          (.progress "upload" "a" "b" 0 0)).print_result .standard
          { bytes_transferred := 0
            files_transferred := 0
            files_failed := 0
            files_warned := 0
            expected_bytes_transferred := 0
            expected_files_transferred := 1 }
          (.failure "upload" "a" "b" "x")).error_file
      ≠ ((ResultPrinter.initial.print_result .onlyShowErrors
          { bytes_transferred := 0
            files_transferred := 0
            files_failed := 0
            files_warned := 0
            expected_bytes_transferred := 0
            expected_files_transferred := 1 }
          (.progress "upload" "a" "b" 0 0)).print_result .onlyShowErrors
          { bytes_transferred := 0
            files_transferred := 0
            files_failed := 0
            files_warned := 0
            expected_bytes_transferred := 0
            expected_files_transferred := 1 }
          (.failure "upload" "a" "b" "x")).error_file) := by
  decide

/-- Claim C8 (amended): the errors-only printer writes nothing (and changes
no state) for progress and success events; it prints failure and warning
events to the error stream with the same format strings as the full
printer, but its tracked progress length is always zero (it never displays
a progress line), so those statements are never padded and can differ from
the full printer's output by trailing padding spaces. -/
theorem c8_errors_only_behaviour :
    (∀ (rec : ResultRecorder) (p : ResultPrinter) (tt s d : String)
        (b t : Int),
        p.print_result .onlyShowErrors rec (.progress tt s d b t) = p ∧
        p.print_result .onlyShowErrors rec (.success tt s d) = p) ∧
    (∀ (rec : ResultRecorder) (p : ResultPrinter) (tt s d e m : String),
        p.print_result .onlyShowErrors rec (.failure tt s d e)
          = { p with
              progress_length := 0
              error_file := p.error_file
                ++ (ljust (failure_statement tt s d e) p.progress_length
                    ++ "\n") } ∧
        p.print_result .onlyShowErrors rec (.warning m)
          = { p with
              progress_length := 0
              error_file := p.error_file
                ++ (ljust (warning_statement m) p.progress_length
                    ++ "\n") }) ∧
    ∀ (steps : List (ResultRecorder × Result)),
        (steps.foldl (fun q x => q.print_result .onlyShowErrors x.1 x.2)
            ResultPrinter.initial).progress_length = 0 := by
  refine ⟨fun rec p tt s d b t => ⟨rfl, rfl⟩, fun rec p tt s d e m => ⟨?_, ?_⟩,
    fun steps => only_show_errors_fold_length steps _ rfl⟩ <;>
    simp [ResultPrinter.print_result, print_failure_statement,
      print_warning_statement, redisplay_progress, add_progress_if_needed,
      dispatch_print_progress, adjust_statement_padding]

/-- Claim C5: however the queued events are interleaved with the other
kinds, after recording a whole sequence the recorder's
`expected_files_transferred` is the number of `QueuedResult` events and
`expected_bytes_transferred` is the sum of their `total_transfer_size`
values. -/
theorem c5_expected_counters (results : List Result) :
    (ResultRecorder.initial.record_all results).expected_files_transferred
        = ((queuedSizes results).length : Int) ∧
    (ResultRecorder.initial.record_all results).expected_bytes_transferred
        = (queuedSizes results).sum := by
  have h := record_all_expected results ResultRecorder.initial
  simpa [ResultRecorder.initial] using h

/-- Claim C6: every recorded `FailureResult` increments both `files_failed`
and `files_transferred` by exactly one, every recorded `SuccessResult`
increments `files_transferred` by exactly one and leaves `files_failed`
untouched, and `files_failed <= files_transferred` holds after recording any
sequence of events from the all-zero initial state. -/
theorem c6_completed_and_failed_counters :
    (∀ (tt s d e : String) (rec : ResultRecorder),
        (rec.record_result (.failure tt s d e)).files_failed
            = rec.files_failed + 1 ∧
        (rec.record_result (.failure tt s d e)).files_transferred
            = rec.files_transferred + 1) ∧
    (∀ (tt s d : String) (rec : ResultRecorder),
        (rec.record_result (.success tt s d)).files_transferred
            = rec.files_transferred + 1 ∧
        (rec.record_result (.success tt s d)).files_failed
            = rec.files_failed) ∧
    ∀ (results : List Result),
        (ResultRecorder.initial.record_all results).files_failed
          ≤ (ResultRecorder.initial.record_all results).files_transferred := by
  refine ⟨fun tt s d e rec => ⟨rfl, rfl⟩, fun tt s d rec => ⟨rfl, rfl⟩,
    fun results => ?_⟩
  exact record_all_failed_le results ResultRecorder.initial
    (by simp [ResultRecorder.initial])

/-- Claim C9: a result whose exact runtime type is none of the five handled
record types (which is where any strict subclass of them lands, since both
dispatch tables key on `type(result)`) leaves every recorder counter
unchanged, makes the printer write nothing to either stream, and neither
dispatcher raises (both are total functions here). -/
theorem c9_unrecognized_noop :
    ∀ (rec : ResultRecorder) (k : PrinterKind) (p : ResultPrinter),
      rec.record_result .unrecognized = rec ∧
      (p.print_result k rec .unrecognized).out_file = p.out_file ∧
      (p.print_result k rec .unrecognized).error_file = p.error_file ∧
      p.print_result k rec .unrecognized = p :=
  fun _ _ _ => ⟨rfl, rfl, rfl, rfl⟩

/-- Claim C10: for any event whose numeric fields are non-negative,
recording it never decreases any of the recorder's six counters. -/
theorem c10_counters_monotone (r : Result) (rec : ResultRecorder)
    (h : result_nonneg r = true) :
    rec.bytes_transferred ≤ (rec.record_result r).bytes_transferred ∧
    rec.files_transferred ≤ (rec.record_result r).files_transferred ∧
    rec.files_failed ≤ (rec.record_result r).files_failed ∧
    rec.files_warned ≤ (rec.record_result r).files_warned ∧
    rec.expected_bytes_transferred
        ≤ (rec.record_result r).expected_bytes_transferred ∧
    rec.expected_files_transferred
        ≤ (rec.record_result r).expected_files_transferred := by
  cases r <;>
    simp_all [result_nonneg, ResultRecorder.record_result,
      ResultRecorder.record_queued_result,
      ResultRecorder.record_progress_result,
      ResultRecorder.record_success_result,
      ResultRecorder.record_failure_result,
      ResultRecorder.record_warning_result, ResultRecorder.record_noop]

/-- Witness for C10 at a concrete progress event and the initial state. -/
theorem c10_counters_monotone_witness :
    result_nonneg (.progress "upload" "a" "b" 5 10) = true ∧
    (ResultRecorder.initial.bytes_transferred
        ≤ (ResultRecorder.initial.record_result
            (.progress "upload" "a" "b" 5 10)).bytes_transferred ∧
     ResultRecorder.initial.files_transferred
        ≤ (ResultRecorder.initial.record_result
            (.progress "upload" "a" "b" 5 10)).files_transferred ∧
     ResultRecorder.initial.files_failed
        ≤ (ResultRecorder.initial.record_result
            (.progress "upload" "a" "b" 5 10)).files_failed ∧
     ResultRecorder.initial.files_warned
        ≤ (ResultRecorder.initial.record_result
            (.progress "upload" "a" "b" 5 10)).files_warned ∧
     ResultRecorder.initial.expected_bytes_transferred
        ≤ (ResultRecorder.initial.record_result
            (.progress "upload" "a" "b" 5 10)).expected_bytes_transferred ∧
     ResultRecorder.initial.expected_files_transferred
        ≤ (ResultRecorder.initial.record_result
            (.progress "upload" "a" "b" 5 10)).expected_files_transferred) :=
  ⟨by decide, c10_counters_monotone _ _ (by decide)⟩
